import Mathlib

/-!
Shallow embedding of the recording subsystem of the `scramer-blab`
repository: the service-worker coordinator (`src/unnamed/part_003`), the
`screen-recorder-v1.0.0/offscreen.js` capture surface, the alternative
offscreen recorder and content-script bridge found in `src/unnamed/part_002`,
and the page-side hook `src/hooks/useExtensionBridge.ts` where needed.

Timestamps, console logging of incidental data, and the exact JS error
message strings recovered from exceptions are condensed to the literal
fallback strings written in the source; everything that the claims depend on
(state fields, guards, branch order, emitted events, resource flags) is
translated branch by branch from the source files.
-/

namespace JS

/-- ASCII lowercasing of one character, as `String.prototype.toLowerCase`
does on the ASCII tool names involved here. -/
def lowerChar (c : Char) : Char :=
  if 65 ≤ c.toNat ∧ c.toNat ≤ 90 then Char.ofNat (c.toNat + 32) else c

/-- `String.prototype.toLowerCase` (ASCII range). -/
def toLower (s : String) : String :=
  String.mk (s.data.map lowerChar)

/-- Does `need` occur as a contiguous run inside `hay`? -/
def charsContain (hay need : List Char) : Bool :=
  match hay with
  | [] => need.isEmpty
  | _ :: t => need.isPrefixOf hay || charsContain t need

/-- `String.prototype.includes`. -/
def includes (s t : String) : Bool :=
  charsContain s.data t.data

/-- `String.prototype.startsWith`. -/
def startsWith (s t : String) : Bool :=
  t.data.isPrefixOf s.data

end JS

namespace Schmer

/-- The `recordingState` value kept in `chrome.storage.local` by the service
worker: one of the strings `stopped`, `recording`, `paused`. -/
inductive RecState
  | stopped
  | recording
  | paused
deriving Repr, DecidableEq

/-- Embeds the JS idiom `x || null` applied to string-valued message fields:
a missing or empty string becomes `null`. -/
def presence : Option String → Option String
  | some s => if s = "" then none else some s
  | none => none

/-- The module-level `schmerSession` object of the service worker
(`src/unnamed/part_003`, lines 38-49). -/
structure Session where
  active : Bool
  tabId : Option Nat
  projectId : Option String
  tool : Option String
  userId : Option String
  userName : Option String
  autoPaused : Bool
  toolTabId : Option Nat
  expectedToolUrl : Option String
deriving Repr, DecidableEq

/-- The payload of a `SCHMER_START_RECORDING` runtime message, together with
the sender tab id that the handler reads from `sender.tab.id`. -/
structure StartMessage where
  projectId : Option String
  tool : Option String
  userId : Option String
  userName : Option String
  senderTabId : Option Nat
  displayModeOpt : Option String
  includeAudioOpt : Option Bool
  toolUrl : Option String
  openInExtension : Option Bool
deriving Repr, DecidableEq

/-- Environment of a start attempt: whether `connectToOffscreen` yields a
port, and the id of the tab created by `chrome.tabs.create` (if any). -/
structure StartEnv where
  portOk : Bool
  createdTabId : Option Nat
deriving Repr, DecidableEq

/-- The display-mode decision of the `SCHMER_START_RECORDING` handler
(`part_003`, lines 246-252): web tools record the tab, desktop tools the
window, otherwise the requested mode or `screen`. -/
def computeDisplayMode (tool : Option String) (displayModeOpt : Option String) : String :=
  let toolName := JS.toLower (tool.getD "")
  let isWebTool := ["arduino", "autoCAD", "vs code", "matlab", "github"].any
    (fun k => JS.includes toolName (JS.toLower k))
  let isDesktopTool := ["proteus", "solidworks"].any
    (fun k => JS.includes toolName (JS.toLower k))
  if isWebTool then "tab"
  else if isDesktopTool then "window"
  else (presence displayModeOpt).getD "screen"

/-- The `sendResponse` value of the start handler: `{success:true}` or
`{success:false, error}`. -/
inductive StartResponse
  | ok
  | failure (error : String)
deriving Repr, DecidableEq

/-- Commands the service worker posts to the offscreen document, and status
messages it sends to the Schmer page tab. -/
inductive SWAction
  | postStart (displayMode : String) (includeAudio : Bool)
  | postPause
  | postResume
  | postStop
  | statusToTab (state : String)
deriving Repr, DecidableEq

/-- Result of the `SCHMER_START_RECORDING` handler: the new session object,
the stored `recordingState`, the response sent to the content script, and the
commands posted to the offscreen document. -/
structure StartResult where
  sess : Session
  rs : RecState
  resp : StartResponse
  acts : List SWAction
deriving Repr, DecidableEq

/-- The `SCHMER_START_RECORDING` handler (`part_003`, lines 230-328).
The handler first overwrites the `schmerSession` fields with the incoming
message's values, then reads `recordingState` and rejects when it equals
`recording`; otherwise it optionally opens the tool tab (or records the
expected tool URL for later discovery) and calls `handleStartRecording`.
Because the built start message always carries `targetTabId: null`, a
computed `tab` mode always falls back to `screen` before the start is
forwarded.  A failed port connection makes `handleStartRecording` throw,
which the surrounding catch turns into an error response. -/
def schmerStartRecording (env : StartEnv) (sess : Session) (rs : RecState)
    (msg : StartMessage) : StartResult :=
  let sess1 : Session :=
    { sess with
      tabId := match msg.senderTabId with | some t => some t | none => sess.tabId
      active := true
      projectId := presence msg.projectId
      tool := presence msg.tool
      userId := presence msg.userId
      userName := presence msg.userName
      autoPaused := false
      toolTabId := none }
  let displayMode := computeDisplayMode msg.tool msg.displayModeOpt
  let includeAudio := !(msg.includeAudioOpt == some false)
  if rs = RecState.recording then
    { sess := sess1, rs := rs, resp := .failure "Recording already in progress", acts := [] }
  else
    let toolUrl := presence msg.toolUrl
    let sess2 :=
      if toolUrl.isSome && !(msg.openInExtension == some false) then
        { sess1 with toolTabId := env.createdTabId }
      else if toolUrl.isSome then
        { sess1 with expectedToolUrl := toolUrl }
      else sess1
    let effectiveMode := if displayMode = "tab" then "screen" else displayMode
    if env.portOk then
      { sess := sess2, rs := RecState.recording, resp := .ok
        acts := [SWAction.postStart effectiveMode includeAudio] }
    else
      { sess := sess2, rs := rs, resp := .failure "Failed to connect to offscreen", acts := [] }

/-- Environment of the plain recording command handlers: whether
`connectToOffscreen` yields a port. -/
structure CoordEnv where
  portOk : Bool
deriving Repr, DecidableEq

/-- `handlePauseRecording` (`part_003`, lines 418-431): connect, store
`recordingState = paused`, post `PAUSE_RECORDING`; a failed connection throws
before any state change. -/
def handlePauseRecording (env : CoordEnv) (rs : RecState) : RecState × List SWAction :=
  if env.portOk then (RecState.paused, [SWAction.postPause]) else (rs, [])

/-- `handleResumeRecording` (`part_003`, lines 433-446). -/
def handleResumeRecording (env : CoordEnv) (rs : RecState) : RecState × List SWAction :=
  if env.portOk then (RecState.recording, [SWAction.postResume]) else (rs, [])

/-- `handleStopRecording` (`part_003`, lines 448-461). -/
def handleStopRecording (env : CoordEnv) (rs : RecState) : RecState × List SWAction :=
  if env.portOk then (RecState.stopped, [SWAction.postStop]) else (rs, [])

/-- Result of the `SCHMER_VISIBILITY` handler: updated session, stored
recording state, posted commands, and the `ok` flag of its response. -/
structure VisResult where
  sess : Session
  rs : RecState
  acts : List SWAction
  ok : Bool
deriving Repr, DecidableEq

/-- The `SCHMER_VISIBILITY` handler (`part_003`, lines 346-381): when the
session is active and the page became visible, a recording that is not
already auto-paused is paused and `autoPaused` is set; when the page became
hidden, a paused recording with `autoPaused` set is resumed and the flag
cleared.  Status messages go to the Schmer tab when its id is known.  A
throw inside (failed port connection) yields an `ok := false` response with
no state change, because the pause/resume helper throws before writing. -/
def schmerVisibility (env : CoordEnv) (sess : Session) (rs : RecState)
    (visible : Bool) : VisResult :=
  if sess.active = false then { sess := sess, rs := rs, acts := [], ok := true }
  else if visible then
    if rs = RecState.recording ∧ sess.autoPaused = false then
      if env.portOk then
        { sess := { sess with autoPaused := true }, rs := RecState.paused
          acts := [SWAction.postPause] ++
            (if sess.tabId.isSome then [SWAction.statusToTab "auto-paused"] else [])
          ok := true }
      else { sess := sess, rs := rs, acts := [], ok := false }
    else { sess := sess, rs := rs, acts := [], ok := true }
  else
    if rs = RecState.paused ∧ sess.autoPaused = true then
      if env.portOk then
        { sess := { sess with autoPaused := false }, rs := RecState.recording
          acts := [SWAction.postResume] ++
            (if sess.tabId.isSome then [SWAction.statusToTab "recording"] else [])
          ok := true }
      else { sess := sess, rs := rs, acts := [], ok := false }
    else { sess := sess, rs := rs, acts := [], ok := true }

/-- Events the coordinator reacts to while a session runs: visibility
signals from the content script and explicit pause/resume commands from the
popup (`PAUSE_RECORDING`/`RESUME_RECORDING`). -/
inductive CoordEvent
  | vis (visible : Bool)
  | pauseCmd
  | resumeCmd
deriving Repr, DecidableEq

/-- One step of the coordinator on the pair (session, stored recording
state). -/
def coordStep (env : CoordEnv) (s : Session × RecState) (e : CoordEvent) :
    Session × RecState :=
  match e with
  | .vis b => let r := schmerVisibility env s.1 s.2 b; (r.sess, r.rs)
  | .pauseCmd => (s.1, (handlePauseRecording env s.2).1)
  | .resumeCmd => (s.1, (handleResumeRecording env s.2).1)

/-- Replay of a list of coordinator events. -/
def coordRun (env : CoordEnv) (s : Session × RecState) (es : List CoordEvent) :
    Session × RecState :=
  es.foldl (coordStep env) s

/-- Result of the `chrome.tabs.onRemoved` listener: the stored recording
state afterwards and how many `handleStopRecording` invocations happened. -/
structure RemoveResult where
  rs : RecState
  stops : Nat
deriving Repr, DecidableEq

/-- The `chrome.tabs.onRemoved` listener (`part_003`, lines 588-603): when a
session is active and the closed tab is the bound tool tab, it calls
`handleStopRecording` exactly once, without consulting the current recording
state; a throw inside the stop is caught and only logged. -/
def tabsOnRemoved (env : CoordEnv) (sess : Session) (rs : RecState)
    (closedTabId : Nat) : RemoveResult :=
  if sess.active = false then { rs := rs, stops := 0 }
  else
    match sess.toolTabId with
    | none => { rs := rs, stops := 0 }
    | some t =>
      if closedTabId ≠ t then { rs := rs, stops := 0 }
      else { rs := (handleStopRecording env rs).1, stops := 1 }

/-- The backend base URL constant of the service worker (`part_003`,
line 16). -/
def BACKEND_URL : String := "http://localhost:3000"

/-- Environment of artifact post-processing: whether `fetch(blobUrl)`
succeeds, whether the message to the Schmer tab is delivered, whether the
backend upload responds ok, and whether the `chrome.downloads.download`
call succeeds. -/
structure DeliveryEnv where
  fetchOk : Bool
  tabMsgOk : Bool
  uploadOk : Bool
  downloadOk : Bool
deriving Repr, DecidableEq

/-- A delivery tier attempted by `handleRecordingStopped`, with its
outcome. -/
inductive DeliveryAttempt
  | bridge (ok : Bool)
  | upload (ok : Bool)
  | localSave (ok : Bool)
deriving Repr, DecidableEq

/-- Result of `handleRecordingStopped`: the session after the `finally`
block, and the delivery tiers attempted in order. -/
structure DeliveryResult where
  sess : Session
  attempts : List DeliveryAttempt
deriving Repr, DecidableEq

/-- `handleRecordingStopped` (`part_003`, lines 467-583).  With an active
Schmer session and a known page tab it fetches the blob and sends it to the
content script with `.catch(() => {})`, so a failed tab delivery is
swallowed and nothing further is attempted; a failed fetch jumps to the
outer catch, which only logs.  Without an active session it uploads to
`BACKEND_URL` when set (any fetch or network error is caught and logged) and
falls back to a local `chrome.downloads.download` when the upload did not
succeed.  The `finally` block resets the session except for `tabId`. -/
def handleRecordingStopped (env : DeliveryEnv) (sess : Session) : DeliveryResult :=
  let attempts :=
    if sess.active && sess.tabId.isSome then
      if env.fetchOk then [DeliveryAttempt.bridge env.tabMsgOk] else []
    else
      let uploadAttempted := env.fetchOk && (BACKEND_URL != "")
      let uploaded := uploadAttempted && env.uploadOk
      (if uploadAttempted then [DeliveryAttempt.upload env.uploadOk] else []) ++
        (if uploaded then [] else [DeliveryAttempt.localSave env.downloadOk])
  { sess :=
      { sess with
        active := false, autoPaused := false, projectId := none, tool := none
        expectedToolUrl := none, toolTabId := none }
    attempts := attempts }

/-- A concrete active session used by the concrete scenarios below. -/
def sessDemo : Session :=
  { active := true, tabId := some 1, projectId := some "p", tool := some "Arduino"
    userId := some "u", userName := some "Ann", autoPaused := false
    toolTabId := some 7, expectedToolUrl := none }

end Schmer

namespace Offs

/-!
The capture surface of `src/screen-recorder-v1.0.0/offscreen.js`.
-/

/-- Messages the offscreen document sends to the service worker over the
port, plus console warnings (which stay inside the offscreen document). -/
inductive Eff
  | statusUpdate (s : String)
  | errorMsg (s : String)
  | warnLog (s : String)
  | recordingStopped
deriving Repr, DecidableEq

/-- The `START_RECORDING` config forwarded by the service worker. -/
structure Config where
  displayMode : String
  includeAudio : Bool
  includeMicrophone : Bool
deriving Repr, DecidableEq

/-- Host environment of a start attempt. -/
structure Env where
  displayOk : Bool
  displayHasAudio : Bool
  micOk : Bool
  vp8Supported : Bool
  ctorOk : Bool
deriving Repr, DecidableEq

/-- Resource/recorder state of the offscreen document.  `chunks` is the
module-level `recordedChunks` buffer; segments are byte lists.  The
`...Live` flags track which acquired tracks have not been stopped, and
`ctxOpen` whether the module-level `AudioContext` is open. -/
structure St where
  recorderActive : Bool
  chunks : List (List Nat)
  displayVideoLive : Bool
  displayAudioLive : Bool
  micLive : Bool
  mixedLive : Bool
  ctxOpen : Bool
deriving Repr, DecidableEq

/-- The idle offscreen document right after load. -/
def initialSt : St :=
  { recorderActive := false, chunks := [], displayVideoLive := false
    displayAudioLive := false, micLive := false, mixedLive := false, ctxOpen := false }

/-- `startRecording` (`offscreen.js`, lines 87-127), combined with
`getDisplayMedia`, `getMicrophoneStream`, `combineStreams` and
`startMediaRecorder`.  A display failure sends an error from
`getDisplayMedia` and rethrows into the outer catch, which sends a second
error.  A microphone failure is caught in `startRecording` and only logs a
console warning, continuing without the mic.  `combineStreams` opens the
audio context whenever a display audio track or a mic stream is present and
records only the mixed destination track into the combined stream.
`startMediaRecorder` always passes the fixed `vp8,opus` type (warning when
unsupported); a throwing constructor lands in the outer catch. -/
def startRecording (env : Env) (cfg : Config) (st : St) : St × List Eff :=
  let st0 := { st with chunks := [] }
  if env.displayOk = false then
    (st0, [Eff.errorMsg "Permission dismissed", Eff.errorMsg "Permission dismissed"])
  else
    let dAudio := cfg.includeAudio && env.displayHasAudio
    let micGot := cfg.includeMicrophone && env.micOk
    let micWarn :=
      if cfg.includeMicrophone && !env.micOk then
        [Eff.warnLog "Microphone unavailable, continuing without mic"]
      else []
    let ctxNeeded := dAudio || micGot
    let mimeWarn :=
      if env.vp8Supported = false then
        [Eff.warnLog "Preferred MIME type not supported, using default"]
      else []
    let st1 :=
      { st0 with
        displayVideoLive := true, displayAudioLive := dAudio, micLive := micGot
        mixedLive := ctxNeeded, ctxOpen := st0.ctxOpen || ctxNeeded }
    if env.ctorOk = false then
      ({ st1 with recorderActive := false },
        micWarn ++ mimeWarn ++ [Eff.errorMsg "MediaRecorder construction failed"])
    else
      ({ st1 with recorderActive := true },
        micWarn ++ mimeWarn ++ [Eff.statusUpdate "Recording started"])

/-- The `ondataavailable` handler (`offscreen.js`, lines 250-255): a segment
is appended to the buffer only when its size is positive. -/
def pushChunk (chunks : List (List Nat)) (seg : List Nat) : List (List Nat) :=
  if 0 < seg.length then chunks ++ [seg] else chunks

/-- The buffer built after a sequence of `ondataavailable` events. -/
def recordSegs (events : List (List Nat)) : List (List Nat) :=
  events.foldl pushChunk []

/-- `new Blob(recordedChunks, ...)` (`offscreen.js`, line 310): byte-wise
concatenation of the buffered segments in order. -/
def blobConcat (chunks : List (List Nat)) : List Nat :=
  chunks.flatten

/-- `stopRecording` (`offscreen.js`, lines 287-343).  With no recorder it
only reports the explicit no-active-recording status.  Otherwise the try
block stops the recorder, stops the tracks of `currentStream` (the display
video tracks plus the mixed destination track — not the original microphone
or display audio tracks, and the audio context is never closed), builds the
blob and reports `RECORDING_STOPPED`; when finalization throws, the catch
only sends an error and stops nothing. -/
def stopRecording (st : St) (finalizeOk : Bool) : St × List Eff :=
  if st.recorderActive = false then
    (st, [Eff.statusUpdate "No active recording"])
  else if finalizeOk = false then
    (st, [Eff.errorMsg "Stop recording error"])
  else
    ({ st with
        recorderActive := false
        chunks := []
        displayVideoLive := false
        mixedLive := false },
      [Eff.recordingStopped])

end Offs

namespace Rec2

/-!
The alternative offscreen recorder in `src/unnamed/part_002` (lines 1-280).
-/

/-- Messages this recorder sends: `offscreen-error` and `offscreen-state`
patches (status plus `lastError`). -/
inductive Eff
  | errMsg (s : String)
  | statePatch (status : String) (lastError : Option String)
deriving Repr, DecidableEq

/-- The options of a `start-recording` message. -/
structure Opts where
  captureMode : String
  systemAudio : Bool
  useMic : Bool
deriving Repr, DecidableEq

/-- Host environment for this recorder. -/
structure Env where
  displayOk : Bool
  displayHasVideo : Bool
  displayHasAudio : Bool
  micOk : Bool
  supported : String → Bool
  ctorOk : Bool
  stopThrows : Bool
  downloadOk : Bool

/-- Stream/recorder state: the live flags for `displayStream`, `micStream`
and `mixedStream`, whether the `AudioContext` is open, the active recorder
with its chosen mime option (`none` while no recorder exists), and the
chunk buffer. -/
structure St where
  displayLive : Bool
  micLive : Bool
  mixedLive : Bool
  ctxOpen : Bool
  recorder : Option (Option String)
  chunks : List (List Nat)
deriving Repr, DecidableEq

/-- The idle recorder state. -/
def idleSt : St :=
  { displayLive := false, micLive := false, mixedLive := false, ctxOpen := false
    recorder := none, chunks := [] }

/-- A host environment in which every acquisition and every codec probe
succeeds; concrete scenarios below adjust single fields. -/
def envAllOk : Env :=
  { displayOk := true, displayHasVideo := true, displayHasAudio := true
    micOk := true, supported := fun _ => true, ctorOk := true
    stopThrows := false, downloadOk := true }

/-- `cleanupStreams` (`part_002`, lines 24-36): stops every track of the
display, mic and mixed streams and closes the audio context. -/
def cleanupStreams (st : St) : St :=
  { st with displayLive := false, micLive := false, mixedLive := false, ctxOpen := false }

/-- The ordered codec preference list of `chooseMimeType` (`part_002`,
line 68). -/
def preferredMimes : List String :=
  ["video/webm;codecs=vp9,opus", "video/webm;codecs=vp8,opus", "video/webm"]

/-- `chooseMimeType` (`part_002`, lines 67-70): the first supported entry of
the preference list, or the empty string when none is supported. -/
def chooseMimeType (supported : String → Bool) : String :=
  (preferredMimes.find? supported).getD ""

/-- `stopRecording` (`part_002`, lines 234-249), with the `onstop` handler
(lines 195-217) condensed into the active-recorder branch.  With no active
recorder it cleans up and reports an idle state carrying the stop reason,
never an `offscreen-error`.  With an active recorder, a throwing
`mediaRecorder.stop()` is caught: error, cleanup, idle state.  Otherwise
`onstop` runs: a stopping state is sent, the chunks (if any) are downloaded
— a failing download aborts `onstop` before any cleanup — and then streams
are cleaned and the recorder is reset. -/
def stopRecording (env : Env) (st : St) (reason : String) : St × List Eff :=
  match st.recorder with
  | some _ =>
    if env.stopThrows then
      (cleanupStreams st, [Eff.errMsg "Failed to stop recording", Eff.statePatch "idle" none])
    else
      if st.chunks ≠ [] && !env.downloadOk then
        (st, [Eff.statePatch "stopping" none])
      else
        ({ cleanupStreams st with recorder := none, chunks := [] },
          [Eff.statePatch "stopping" none, Eff.statePatch "idle" none])
  | none =>
    (cleanupStreams st, [Eff.statePatch "idle" (some reason)])

/-- `startRecording` (`part_002`, lines 72-220).  An existing recorder is
stopped first.  A display-capture failure reports an error and an idle
state.  A microphone failure while `useMic` is requested is fatal here:
error, idle state, stream cleanup, return.  A display stream without video
tracks reports the no-video error and cleans up.  Audio tracks are mixed
through an `AudioContext` destination when any are present.  The recorder is
constructed with the chosen mime type when one was found (else with
defaults); a throwing constructor reports the unsupported-recorder error and
cleans up.  On success the `onstart` handler reports a recording state. -/
def startRecording (env : Env) (opts : Opts) (st0 : St) : St × List Eff :=
  let pre : St × List Eff :=
    match st0.recorder with
    | some _ => stopRecording env st0 "stop-requested"
    | none => (st0, [])
  let st := { pre.1 with chunks := [] }
  if env.displayOk = false then
    (st, pre.2 ++ [Eff.errMsg "User cancelled display capture.",
      Eff.statePatch "idle" (some "Capture cancelled.")])
  else
    let stD := { st with displayLive := true }
    if opts.useMic && !env.micOk then
      (cleanupStreams stD, pre.2 ++ [Eff.errMsg "Microphone unavailable.",
        Eff.statePatch "idle" (some "Microphone unavailable.")])
    else
      let micGot := opts.useMic
      let stM := { stD with micLive := micGot }
      if env.displayHasVideo = false then
        (cleanupStreams stM, pre.2 ++ [Eff.errMsg "No video track found in display stream."])
      else
        let dAudio := opts.systemAudio && env.displayHasAudio
        let anyAudio := dAudio || micGot
        let stX := { stM with ctxOpen := stM.ctxOpen || anyAudio, mixedLive := true }
        let mime := chooseMimeType env.supported
        if env.ctorOk = false then
          (cleanupStreams stX, pre.2 ++ [Eff.errMsg "MediaRecorder unsupported in this browser."])
        else
          ({ stX with recorder := some (if mime = "" then none else some mime) },
            pre.2 ++ [Eff.statePatch "recording" none])

end Rec2

namespace CS

/-!
The Schmer bridge content script (`src/unnamed/part_002`, lines 281-403).
-/

/-- The `data` object of a window message, when it is an object: its `type`
field (when a string) and the payload fields the start case reads. -/
structure PageData where
  mtype : Option String
  projectId : Option String
  tool : Option String
  userId : Option String
  userName : Option String
deriving Repr, DecidableEq

/-- A window `message` event as seen by the content script listener. -/
structure PageEvent where
  sourceIsWindow : Bool
  data : Option PageData
deriving Repr, DecidableEq

/-- The content script's `activeSession` object. -/
structure ActiveSession where
  projectId : Option String
  tool : Option String
  userId : Option String
  userName : Option String
  source : String
  autoPaused : Bool
deriving Repr, DecidableEq

/-- Observable actions of the content script: `chrome.runtime.sendMessage`
requests to the service worker, `window.postMessage` posts back to the page,
and console logs. -/
inductive Eff
  | toExtension (action : String)
  | toPage (mtype : String)
  | consoleLog (mtype : String)
deriving Repr, DecidableEq

/-- Environment: whether `chrome.runtime.sendMessage` itself works, and the
`success` flags of the start/stop responses from the service worker. -/
structure Env where
  extOk : Bool
  startOk : Bool
  stopOk : Bool
deriving Repr, DecidableEq

/-- The guard of the window message listener (`part_002`, lines 307-314): a
message is acted on only when it comes from the page's own window, its data
is an object, and its `type` is a string starting with `SCHMER_`. -/
def relevantEvent (e : PageEvent) : Bool :=
  e.sourceIsWindow &&
    (match e.data with
     | some d =>
       match d.mtype with
       | some t => JS.startsWith t "SCHMER_"
       | none => false
     | none => false)

/-- The switch body of the listener for an accepted `SCHMER_` message
(`part_002`, lines 316-365).  Every accepted message is logged first; a
throwing `sendMessage` (dead extension context) is caught and posted back as
a `SCHMER_ERROR`.  Unknown `SCHMER_` types fall through the default case. -/
def handleSchmerMessage (env : Env) (sess : Option ActiveSession) (d : PageData)
    (t : String) : Option ActiveSession × List Eff :=
  if t = "SCHMER_PING" then
    if env.extOk then
      (sess, [Eff.consoleLog t, Eff.toExtension "SCHMER_HANDSHAKE", Eff.toPage "SCHMER_PONG"])
    else
      (sess, [Eff.consoleLog t, Eff.toPage "SCHMER_ERROR"])
  else if t = "SCHMER_START_RECORDING" then
    let a : ActiveSession :=
      { projectId := Schmer.presence d.projectId, tool := Schmer.presence d.tool
        userId := Schmer.presence d.userId, userName := Schmer.presence d.userName
        source := "schmer", autoPaused := false }
    if env.extOk then
      (some a, [Eff.consoleLog t, Eff.toExtension "SCHMER_START_RECORDING",
        Eff.toPage (if env.startOk then "SCHMER_RECORDING_STARTED" else "SCHMER_ERROR")])
    else
      (some a, [Eff.consoleLog t, Eff.toPage "SCHMER_ERROR"])
  else if t = "SCHMER_STOP_RECORDING" then
    if env.extOk then
      (sess, [Eff.consoleLog t, Eff.toExtension "SCHMER_STOP_RECORDING",
        Eff.toPage (if env.stopOk then "SCHMER_RECORDING_STOPPING" else "SCHMER_ERROR")])
    else
      (sess, [Eff.consoleLog t, Eff.toPage "SCHMER_ERROR"])
  else
    (sess, [Eff.consoleLog t])

/-- A window message payload with a non-`SCHMER_` type, for the concrete
scenarios below. -/
def evilData : PageData :=
  { mtype := some "evil", projectId := none, tool := none, userId := none
    userName := none }

/-- A `SCHMER_PING` payload, for the concrete scenarios below. -/
def pingData : PageData :=
  { mtype := some "SCHMER_PING", projectId := none, tool := none, userId := none
    userName := none }

/-- An environment in which the extension context is alive and every
command succeeds. -/
def envLive : Env :=
  { extOk := true, startOk := true, stopOk := true }

/-- The full window message listener: the guards, then the switch. -/
def handleWindowMessage (env : Env) (sess : Option ActiveSession) (e : PageEvent) :
    Option ActiveSession × List Eff :=
  if e.sourceIsWindow = false then (sess, [])
  else
    match e.data with
    | none => (sess, [])
    | some d =>
      match d.mtype with
      | none => (sess, [])
      | some t =>
        if JS.startsWith t "SCHMER_" = false then (sess, [])
        else handleSchmerMessage env sess d t

/-- Replay of a list of window messages, accumulating the actions. -/
def runEvents (env : Env) (s : Option ActiveSession × List Eff)
    (events : List PageEvent) : Option ActiveSession × List Eff :=
  events.foldl
    (fun acc e =>
      let r := handleWindowMessage env acc.1 e
      (r.1, acc.2 ++ r.2))
    s

end CS

/-!
## Shared lemmas
-/

theorem backend_url_set : (Schmer.BACKEND_URL != "") = true := by decide

theorem pushChunk_filter (events : List (List Nat)) :
    ∀ acc, events.foldl Offs.pushChunk acc =
      acc ++ events.filter (fun s => decide (0 < s.length)) := by
  induction events with
  | nil => intro acc; simp
  | cons e t ih =>
    intro acc
    by_cases h : 0 < e.length
    · simp [Offs.pushChunk, List.filter_cons, h, ih]
    · simp [Offs.pushChunk, List.filter_cons, h, ih]

theorem cs_handle_irrelevant (env : CS.Env) (sess : Option CS.ActiveSession)
    (e : CS.PageEvent) (h : CS.relevantEvent e = false) :
    CS.handleWindowMessage env sess e = (sess, []) := by
  obtain ⟨src, data⟩ := e
  cases src with
  | false => rfl
  | true =>
    cases data with
    | none => rfl
    | some d =>
      obtain ⟨mt, p1, p2, p3, p4⟩ := d
      cases mt with
      | none => rfl
      | some t =>
        simp only [CS.relevantEvent, Bool.true_and] at h
        simp [CS.handleWindowMessage, h]

theorem cs_runEvents_filter (env : CS.Env) (events : List CS.PageEvent) :
    ∀ acc, CS.runEvents env acc events =
      CS.runEvents env acc (events.filter CS.relevantEvent) := by
  induction events with
  | nil => intro acc; rfl
  | cons e t ih =>
    intro acc
    by_cases h : CS.relevantEvent e
    · simp only [CS.runEvents, List.foldl_cons, List.filter_cons, h, if_true]
      exact ih _
    · have hh : CS.relevantEvent e = false := by simpa using h
      have hstep := cs_handle_irrelevant env acc.1 e hh
      simp only [CS.runEvents, List.foldl_cons, List.filter_cons, hh, Bool.false_eq_true,
        if_false, hstep, List.append_nil]
      exact ih acc

/-!
## Claim theorems
-/

/-- Claim C1 (amended): a start command received while the stored
`recordingState` is `recording` is answered with the
"Recording already in progress" error and no start command is forwarded or
queued; however, before the guard runs the handler has already overwritten
the session fields — projectId, tool, user identity, the autoPaused flag,
the bound tool tab id and the page tab id — with the incoming request's
values, so the existing session is not left unchanged. -/
theorem c1_already_recording_overwrites (env : Schmer.StartEnv) (sess : Schmer.Session)
    (msg : Schmer.StartMessage) :
    let r := Schmer.schmerStartRecording env sess Schmer.RecState.recording msg
    r.resp = Schmer.StartResponse.failure "Recording already in progress" ∧
    r.acts = [] ∧
    r.rs = Schmer.RecState.recording ∧
    r.sess.active = true ∧
    r.sess.projectId = Schmer.presence msg.projectId ∧
    r.sess.tool = Schmer.presence msg.tool ∧
    r.sess.userId = Schmer.presence msg.userId ∧
    r.sess.userName = Schmer.presence msg.userName ∧
    r.sess.autoPaused = false ∧
    r.sess.toolTabId = none ∧
    r.sess.tabId = (match msg.senderTabId with | some t => some t | none => sess.tabId) := by
  exact ⟨rfl, rfl, rfl, rfl, rfl, rfl, rfl, rfl, rfl, rfl, rfl⟩

/-- Claim C1 counterexample: with the stored state `recording`, a second
start is rejected with the already-recording error, yet the existing
session's projectId, autoPaused flag and bound tool tab id are overwritten
by the rejected request; and with the stored state `paused` (a non-Idle
state) the start is not rejected at all. -/
theorem c1_counterexample :
    let env : Schmer.StartEnv := { portOk := true, createdTabId := none }
    let sess : Schmer.Session := { Schmer.sessDemo with autoPaused := true }
    let msg : Schmer.StartMessage :=
      { projectId := some "p2", tool := some "Arduino", userId := some "u2"
        userName := some "Uma", senderTabId := some 4, displayModeOpt := none
        includeAudioOpt := none, toolUrl := none, openInExtension := none }
    let r := Schmer.schmerStartRecording env sess Schmer.RecState.recording msg
    (r.resp = Schmer.StartResponse.failure "Recording already in progress" ∧
      r.sess ≠ sess ∧
      r.sess.projectId = some "p2" ∧
      r.sess.autoPaused = false ∧
      r.sess.toolTabId = none) ∧
    (Schmer.schmerStartRecording env sess Schmer.RecState.paused msg).resp =
      Schmer.StartResponse.ok := by
  decide

/-- Claim C2 (amended): with a reachable offscreen port and an active
session, a visibility-true signal pauses and sets `autoPaused` only when the
state is `recording` and `autoPaused` is still false; a visibility-false
signal while `paused` with `autoPaused` set resumes and clears the flag; and
a session whose pause was explicit (`autoPaused = false`) is never resumed
by a visibility-false signal. -/
theorem c2_visibility_amended (env : Schmer.CoordEnv) (sess : Schmer.Session)
    (rs : Schmer.RecState) (hport : env.portOk = true) (hact : sess.active = true) :
    (rs = Schmer.RecState.recording → sess.autoPaused = false →
      (Schmer.schmerVisibility env sess rs true).rs = Schmer.RecState.paused ∧
      (Schmer.schmerVisibility env sess rs true).sess.autoPaused = true ∧
      Schmer.SWAction.postPause ∈ (Schmer.schmerVisibility env sess rs true).acts) ∧
    (rs = Schmer.RecState.paused → sess.autoPaused = true →
      (Schmer.schmerVisibility env sess rs false).rs = Schmer.RecState.recording ∧
      (Schmer.schmerVisibility env sess rs false).sess.autoPaused = false ∧
      Schmer.SWAction.postResume ∈ (Schmer.schmerVisibility env sess rs false).acts) ∧
    (sess.autoPaused = false →
      Schmer.schmerVisibility env sess rs false =
        { sess := sess, rs := rs, acts := [], ok := true }) := by
  refine ⟨?_, ?_, ?_⟩
  · intro h1 h2
    simp [Schmer.schmerVisibility, hact, hport, h1, h2]
  · intro h1 h2
    simp [Schmer.schmerVisibility, hact, hport, h1, h2]
  · intro h1
    simp [Schmer.schmerVisibility, hact, hport, h1]

/-- Witness for the amended C2 theorem at a concrete session. -/
theorem c2_visibility_amended_witness :
    (Schmer.schmerVisibility { portOk := true } { Schmer.sessDemo with toolTabId := none }
        Schmer.RecState.recording true).rs = Schmer.RecState.paused ∧
    (Schmer.schmerVisibility { portOk := true } { Schmer.sessDemo with toolTabId := none }
        Schmer.RecState.recording true).sess.autoPaused = true := by
  have h := c2_visibility_amended { portOk := true }
    { Schmer.sessDemo with toolTabId := none } Schmer.RecState.recording rfl rfl
  exact ⟨(h.1 rfl rfl).1, (h.1 rfl rfl).2.1⟩

/-- Claim C2 counterexample: after an auto-pause followed by an explicit
resume command the coordinator is back in `recording` with `autoPaused`
still true — a state reachable by the event trace below — and a
visibility-true signal arriving there causes no pause and no state change,
although the claim requires a pause whenever the state is Recording. -/
theorem c2_counterexample :
    let env : Schmer.CoordEnv := { portOk := true }
    let sess0 : Schmer.Session := { Schmer.sessDemo with toolTabId := none }
    let s2 := Schmer.coordRun env (sess0, Schmer.RecState.recording)
      [Schmer.CoordEvent.vis true, Schmer.CoordEvent.resumeCmd]
    (s2.2 = Schmer.RecState.recording ∧ s2.1.active = true ∧ s2.1.autoPaused = true) ∧
    Schmer.schmerVisibility env s2.1 s2.2 true =
      { sess := s2.1, rs := s2.2, acts := [], ok := true } := by
  decide

/-- Claim C3 (amended): in the `screen-recorder-v1.0.0` offscreen surface a
microphone failure with successful display capture is non-fatal — recording
still starts, a warning is logged, and no error event (in particular no
capture-cancelled outcome) is emitted; in the `part_002` offscreen recorder
variant, by contrast, microphone acquisition failure aborts the start
attempt: an error event is emitted, the acquired streams are cleaned up, and
no recorder is started. -/
theorem c3_mic_amended (env : Offs.Env) (cfg : Offs.Config) (st : Offs.St)
    (env2 : Rec2.Env) (opts : Rec2.Opts) (st2 : Rec2.St)
    (hd : env.displayOk = true) (hm : env.micOk = false) (hc : env.ctorOk = true)
    (hmic : cfg.includeMicrophone = true)
    (hd2 : env2.displayOk = true) (hm2 : env2.micOk = false) (hu2 : opts.useMic = true)
    (h02 : st2.recorder = none) :
    ((Offs.startRecording env cfg st).1.recorderActive = true ∧
      (Offs.startRecording env cfg st).1.micLive = false ∧
      Offs.Eff.warnLog "Microphone unavailable, continuing without mic" ∈
        (Offs.startRecording env cfg st).2 ∧
      (∀ s, Offs.Eff.errorMsg s ∉ (Offs.startRecording env cfg st).2) ∧
      Offs.Eff.statusUpdate "Recording started" ∈ (Offs.startRecording env cfg st).2) ∧
    ((Rec2.startRecording env2 opts st2).1.recorder = none ∧
      (Rec2.startRecording env2 opts st2).1.displayLive = false ∧
      (Rec2.startRecording env2 opts st2).1.micLive = false ∧
      Rec2.Eff.errMsg "Microphone unavailable." ∈ (Rec2.startRecording env2 opts st2).2) := by
  constructor
  · cases hv : env.vp8Supported <;>
      simp [Offs.startRecording, hd, hm, hc, hmic, hv]
  · simp [Rec2.startRecording, hd2, hm2, hu2, h02, Rec2.cleanupStreams]

/-- Witness for the amended C3 theorem at concrete environments. -/
theorem c3_mic_amended_witness :
    (Offs.startRecording
        { displayOk := true, displayHasAudio := true, micOk := false
          vp8Supported := true, ctorOk := true }
        { displayMode := "tab", includeAudio := true, includeMicrophone := true }
        Offs.initialSt).1.recorderActive = true ∧
    (Rec2.startRecording { Rec2.envAllOk with micOk := false }
        { captureMode := "screen", systemAudio := true, useMic := true }
        Rec2.idleSt).1.recorder = none := by
  have h := c3_mic_amended
    { displayOk := true, displayHasAudio := true, micOk := false
      vp8Supported := true, ctorOk := true }
    { displayMode := "tab", includeAudio := true, includeMicrophone := true }
    Offs.initialSt
    { Rec2.envAllOk with micOk := false }
    { captureMode := "screen", systemAudio := true, useMic := true }
    Rec2.idleSt
    rfl rfl rfl rfl rfl rfl rfl rfl
  exact ⟨h.1.1, h.2.1⟩

/-- Claim C3 counterexample: in the `part_002` recorder a start with the
microphone requested, display capture succeeding and microphone acquisition
failing does not start recording at all — the attempt aborts with a fatal
error event and stream cleanup, instead of continuing with a warning. -/
theorem c3_counterexample :
    let r := Rec2.startRecording { Rec2.envAllOk with micOk := false }
      { captureMode := "screen", systemAudio := true, useMic := true } Rec2.idleSt
    r.1.recorder = none ∧
    r.1.displayLive = false ∧
    r.1.micLive = false ∧
    r.2 = [Rec2.Eff.errMsg "Microphone unavailable.",
      Rec2.Eff.statePatch "idle" (some "Microphone unavailable.")] := by
  decide

/-- Claim C4 (amended): with an active Schmer session and a known page tab,
`handleRecordingStopped` makes a single best-effort delivery to that page's
bridge (none at all when fetching the blob fails) and a failure of that
delivery is swallowed without attempting the upload or local-save tiers;
only when no Schmer session is active does the tier chain run — a backend
upload is attempted and, when it fails or cannot even be started, the
artifact falls back to a local download. -/
theorem c4_delivery_amended (env : Schmer.DeliveryEnv) (sessA sessB : Schmer.Session)
    (hA : sessA.active = true) (hT : sessA.tabId.isSome = true)
    (hB : sessB.active = false) :
    ((Schmer.handleRecordingStopped env sessA).attempts =
        (if env.fetchOk then [Schmer.DeliveryAttempt.bridge env.tabMsgOk] else []) ∧
      (∀ b, Schmer.DeliveryAttempt.upload b ∉
        (Schmer.handleRecordingStopped env sessA).attempts) ∧
      (∀ b, Schmer.DeliveryAttempt.localSave b ∉
        (Schmer.handleRecordingStopped env sessA).attempts)) ∧
    ((Schmer.handleRecordingStopped env sessB).attempts =
      if env.fetchOk then
        (if env.uploadOk then [Schmer.DeliveryAttempt.upload true]
          else [Schmer.DeliveryAttempt.upload false,
            Schmer.DeliveryAttempt.localSave env.downloadOk])
      else [Schmer.DeliveryAttempt.localSave env.downloadOk]) := by
  cases hf : env.fetchOk <;> cases hu : env.uploadOk <;>
    simp [Schmer.handleRecordingStopped, hA, hT, hB, hf, hu, backend_url_set]

/-- Witness for the amended C4 theorem at concrete inputs. -/
theorem c4_delivery_amended_witness :
    (Schmer.handleRecordingStopped
        { fetchOk := true, tabMsgOk := false, uploadOk := true, downloadOk := true }
        { Schmer.sessDemo with toolTabId := none }).attempts =
      [Schmer.DeliveryAttempt.bridge false] ∧
    (Schmer.handleRecordingStopped
        { fetchOk := true, tabMsgOk := false, uploadOk := false, downloadOk := true }
        { Schmer.sessDemo with active := false }).attempts =
      [Schmer.DeliveryAttempt.upload false, Schmer.DeliveryAttempt.localSave true] := by
  have h1 := c4_delivery_amended
    { fetchOk := true, tabMsgOk := false, uploadOk := true, downloadOk := true }
    { Schmer.sessDemo with toolTabId := none } { Schmer.sessDemo with active := false }
    rfl rfl rfl
  have h2 := c4_delivery_amended
    { fetchOk := true, tabMsgOk := false, uploadOk := false, downloadOk := true }
    { Schmer.sessDemo with toolTabId := none } { Schmer.sessDemo with active := false }
    rfl rfl rfl
  exact ⟨by simpa using h1.1.1, by simpa using h2.2⟩

/-- Claim C4 counterexample: with an active session whose page tab is set,
a failed bridge delivery terminates the whole delivery — the attempts list
is exactly the one failed bridge attempt, and neither the upload tier (which
would have succeeded here) nor the local-save tier is ever tried. -/
theorem c4_counterexample :
    (Schmer.handleRecordingStopped
        { fetchOk := true, tabMsgOk := false, uploadOk := true, downloadOk := true }
        Schmer.sessDemo).attempts = [Schmer.DeliveryAttempt.bridge false] := by
  decide

/-- Claim C5 (confirmed): the chunk buffer keeps exactly the non-empty
segments in their production order, and the artifact blob built from the
buffer has byte length equal to the sum of the buffered segment lengths. -/
theorem c5_chunk_buffer (events : List (List Nat)) :
    Offs.recordSegs events = events.filter (fun s => decide (0 < s.length)) ∧
    (Offs.blobConcat (Offs.recordSegs events)).length =
      ((Offs.recordSegs events).map List.length).sum := by
  constructor
  · simpa [Offs.recordSegs] using pushChunk_filter events []
  · simp [Offs.blobConcat, List.length_flatten]

/-- Claim C6 (code bug): after a start that acquires display video, display
audio and a microphone, a successful stop stops only the combined stream's
tracks — the microphone track, the display audio track and the audio
context all stay live — and a stop whose finalization throws releases
nothing at all, contradicting the unconditional-release requirement. -/
theorem c6_handles_left_live :
    let env : Offs.Env :=
      { displayOk := true, displayHasAudio := true, micOk := true
        vp8Supported := true, ctorOk := true }
    let cfg : Offs.Config :=
      { displayMode := "tab", includeAudio := true, includeMicrophone := true }
    let started := (Offs.startRecording env cfg Offs.initialSt).1
    (started.displayVideoLive = true ∧ started.displayAudioLive = true ∧
      started.micLive = true ∧ started.ctxOpen = true ∧ started.recorderActive = true) ∧
    ((Offs.stopRecording started true).1.displayVideoLive = false ∧
      (Offs.stopRecording started true).1.micLive = true ∧
      (Offs.stopRecording started true).1.displayAudioLive = true ∧
      (Offs.stopRecording started true).1.ctxOpen = true) ∧
    ((Offs.stopRecording started false).1 = started ∧
      Offs.Eff.errorMsg "Stop recording error" ∈ (Offs.stopRecording started false).2) := by
  decide

/-- Claim C7 (confirmed): a stop with no active recorder reports the
explicit no-active-recording status, changes nothing, emits no error, and a
second stop behaves identically; the `part_002` variant likewise reports an
idle state carrying the stop reason and never an error message. -/
theorem c7_stop_idempotent (st : Offs.St) (fOk : Bool) (h : st.recorderActive = false)
    (env2 : Rec2.Env) (st2 : Rec2.St) (reason : String) (h2 : st2.recorder = none) :
    Offs.stopRecording st fOk = (st, [Offs.Eff.statusUpdate "No active recording"]) ∧
    (∀ s, Offs.Eff.errorMsg s ∉ (Offs.stopRecording st fOk).2) ∧
    Offs.stopRecording (Offs.stopRecording st fOk).1 fOk =
      (st, [Offs.Eff.statusUpdate "No active recording"]) ∧
    (Rec2.stopRecording env2 st2 reason).2 =
      [Rec2.Eff.statePatch "idle" (some reason)] ∧
    (∀ s, Rec2.Eff.errMsg s ∉ (Rec2.stopRecording env2 st2 reason).2) := by
  refine ⟨?_, ?_, ?_, ?_, ?_⟩ <;>
    simp [Offs.stopRecording, Rec2.stopRecording, h, h2]

/-- Witness for the C7 theorem at concrete states. -/
theorem c7_stop_idempotent_witness :
    Offs.stopRecording Offs.initialSt true =
      (Offs.initialSt, [Offs.Eff.statusUpdate "No active recording"]) ∧
    (Rec2.stopRecording Rec2.envAllOk Rec2.idleSt "stop-requested").2 =
      [Rec2.Eff.statePatch "idle" (some "stop-requested")] := by
  have h := c7_stop_idempotent Offs.initialSt true rfl
    Rec2.envAllOk Rec2.idleSt "stop-requested" rfl
  exact ⟨h.1, h.2.2.2.1⟩

/-- Claim C8 (amended): when some codec in the ordered preference list is
supported, the recorder is constructed with the first supported entry; when
no codec in the list is supported, the recorder is constructed without an
explicit codec (the host default) and recording still starts without any
error — the start attempt fails with the unsupported-recorder error, stream
cleanup and no recorder only when the construction itself throws. -/
theorem c8_codec_amended (env : Rec2.Env) (st : Rec2.St) (opts : Rec2.Opts) (m : String)
    (h0 : st.recorder = none) (hm : opts.useMic = false)
    (hd : env.displayOk = true) (hv : env.displayHasVideo = true) :
    (env.ctorOk = true → Rec2.preferredMimes.find? env.supported = some m →
      (Rec2.startRecording env opts st).1.recorder = some (some m)) ∧
    (env.ctorOk = true → Rec2.preferredMimes.find? env.supported = none →
      (Rec2.startRecording env opts st).1.recorder = some none ∧
      (∀ s, Rec2.Eff.errMsg s ∉ (Rec2.startRecording env opts st).2)) ∧
    (env.ctorOk = false →
      (Rec2.startRecording env opts st).1.recorder = none ∧
      (Rec2.startRecording env opts st).1.ctxOpen = false ∧
      Rec2.Eff.errMsg "MediaRecorder unsupported in this browser." ∈
        (Rec2.startRecording env opts st).2) := by
  refine ⟨?_, ?_, ?_⟩
  · intro hc hfind
    have hmem := List.mem_of_find?_eq_some hfind
    simp only [Rec2.preferredMimes, List.mem_cons, List.not_mem_nil, or_false] at hmem
    have hne : m ≠ "" := by
      rcases hmem with hq | hq | hq <;> rw [hq] <;> decide
    simp [Rec2.startRecording, Rec2.chooseMimeType, h0, hm, hd, hv, hc, hfind, hne]
  · intro hc hfind
    simp [Rec2.startRecording, Rec2.chooseMimeType, h0, hm, hd, hv, hc, hfind,
      Rec2.cleanupStreams]
  · intro hc
    simp [Rec2.startRecording, Rec2.chooseMimeType, h0, hm, hd, hv, hc,
      Rec2.cleanupStreams]

/-- Witness for the amended C8 theorem: with every codec supported, the
recorder uses the first entry of the preference list. -/
theorem c8_codec_amended_witness :
    (Rec2.startRecording Rec2.envAllOk
        { captureMode := "screen", systemAudio := true, useMic := false }
        Rec2.idleSt).1.recorder = some (some "video/webm;codecs=vp9,opus") := by
  have h := c8_codec_amended Rec2.envAllOk Rec2.idleSt
    { captureMode := "screen", systemAudio := true, useMic := false }
    "video/webm;codecs=vp9,opus" rfl rfl rfl rfl
  exact h.1 rfl rfl

/-- Claim C8 counterexample: with a host that supports no codec in the
preference list (but whose recorder constructor works), the start succeeds
with the default codec and no error at all is emitted, instead of failing
with an unsupported-encoder error. -/
theorem c8_counterexample :
    let r := Rec2.startRecording { Rec2.envAllOk with supported := fun _ => false }
      { captureMode := "screen", systemAudio := false, useMic := false } Rec2.idleSt
    r.1.recorder = some none ∧
    r.2 = [Rec2.Eff.statePatch "recording" none] := by
  decide

/-- Claim C9 (confirmed): when a session is active and the closed tab is
the bound tool tab, the `tabs.onRemoved` listener issues exactly one stop
invocation, whatever the stored recording state is. -/
theorem c9_tab_close_stop (env : Schmer.CoordEnv) (sess : Schmer.Session)
    (rs : Schmer.RecState) (t : Nat) (ha : sess.active = true)
    (hb : sess.toolTabId = some t) :
    (Schmer.tabsOnRemoved env sess rs t).stops = 1 := by
  simp [Schmer.tabsOnRemoved, ha, hb]

/-- Witness for the C9 theorem at a concrete session, in the `paused`
state. -/
theorem c9_tab_close_stop_witness :
    (Schmer.tabsOnRemoved { portOk := true } Schmer.sessDemo
      Schmer.RecState.paused 7).stops = 1 := by
  exact c9_tab_close_stop { portOk := true } Schmer.sessDemo
    Schmer.RecState.paused 7 rfl rfl

/-- Claim C10 (confirmed): a window message whose source is not the page's
own window, whose data is not an object, or whose type is not a string
starting with `SCHMER_` leaves the bridge content script completely inert —
no command is forwarded, nothing is posted to the page, and the session is
untouched — so replaying any message sequence gives exactly the state and
actions of replaying only its relevant subsequence. -/
theorem c10_bridge_filter (env : CS.Env) (sess : Option CS.ActiveSession)
    (e : CS.PageEvent) (events : List CS.PageEvent) :
    (CS.relevantEvent e = false → CS.handleWindowMessage env sess e = (sess, [])) ∧
    CS.runEvents env (sess, []) events =
      CS.runEvents env (sess, []) (events.filter CS.relevantEvent) := by
  exact ⟨cs_handle_irrelevant env sess e, cs_runEvents_filter env events (sess, [])⟩

/-- Witness for the C10 theorem: a non-`SCHMER_` message and a message not
from the page's own window are both ignored. -/
theorem c10_bridge_filter_witness :
    CS.handleWindowMessage CS.envLive none
      { sourceIsWindow := true, data := some CS.evilData } = (none, []) ∧
    CS.handleWindowMessage CS.envLive none
      { sourceIsWindow := false, data := some CS.pingData } = (none, []) := by
  have h1 := c10_bridge_filter CS.envLive none
    { sourceIsWindow := true, data := some CS.evilData } []
  have h2 := c10_bridge_filter CS.envLive none
    { sourceIsWindow := false, data := some CS.pingData } []
  exact ⟨h1.1 (by decide), h2.1 (by decide)⟩
